import Mathlib

/-!
Verification development for `parse_stars.py`, a star-catalog parsing
pipeline.  The Python source is shallowly embedded: Python floats are
modelled as rationals (`ℚ`), Python `float(·)`/`int(·)` on strings as
`Option`-valued parsers over plain decimal/integer literals, Python
`round(·, n)` as round-half-to-even on `ℚ`, and the per-line
catch-and-skip control flow as an `Option`/sum-typed result.
-/

set_option linter.unusedVariables false

namespace Phantastro

/-- Does `pat` occur at the head of the second list? -/
def leadsWith : List Char → List Char → Bool
  | [], _ => true
  | _ :: _, [] => false
  | p :: ps, c :: cs => p == c && leadsWith ps cs

/-- Does `pat` occur anywhere inside the second list? -/
def hasSubL (pat : List Char) : List Char → Bool
  | [] => pat.isEmpty
  | c :: cs => leadsWith pat (c :: cs) || hasSubL pat cs

/-- Model of the Python substring test `pat in hay`. -/
def hasSub (hay pat : String) : Bool := hasSubL pat.data hay.data

/-- Numeric value of a run of decimal digit characters. -/
def digitsVal (cs : List Char) : ℕ := cs.foldl (fun a c => 10 * a + (c.toNat - 48)) 0

/-- Unsigned part of the Python `float(s)` model: a decimal literal
`digits`, `digits.`, `.digits` or `digits.digits`. -/
def pyFloatCore (cs : List Char) : Option ℚ :=
  let ip := cs.takeWhile Char.isDigit
  let rest := cs.dropWhile Char.isDigit
  match rest with
  | [] => if ip.isEmpty then none else some (digitsVal ip)
  | '.' :: fp =>
      if fp.all Char.isDigit && (!ip.isEmpty || !fp.isEmpty) then
        some ((digitsVal ip : ℚ) + (digitsVal fp : ℚ) / 10 ^ fp.length)
      else none
  | _ => none

/-- Model of Python `float(s)` restricted to plain signed decimal literals
(the forms occurring in the catalog); other strings fail to parse. -/
def pyFloat? (s : String) : Option ℚ :=
  match s.data with
  | '+' :: cs => pyFloatCore cs
  | '-' :: cs => (pyFloatCore cs).map Neg.neg
  | cs => pyFloatCore cs

/-- Unsigned part of the Python `int(s)` model: a nonempty digit run. -/
def pyIntCore (cs : List Char) : Option ℤ :=
  if cs.isEmpty || !cs.all Char.isDigit then none else some (digitsVal cs)

/-- Model of Python `int(s)` on signed decimal integer literals. -/
def pyInt? (s : String) : Option ℤ :=
  match s.data with
  | '+' :: cs => pyIntCore cs
  | '-' :: cs => (pyIntCore cs).map Neg.neg
  | cs => pyIntCore cs

/-- Round-half-to-even to an integer, the rounding Python `round` uses. -/
def rndNE (q : ℚ) : ℤ :=
  if q - ⌊q⌋ < 1 / 2 then ⌊q⌋
  else if 1 / 2 < q - ⌊q⌋ then ⌊q⌋ + 1
  else if ⌊q⌋ % 2 = 0 then ⌊q⌋ else ⌊q⌋ + 1

/-- Model of Python `round(q, n)`. -/
def pyRound (q : ℚ) (n : ℕ) : ℚ := (rndNE (q * 10 ^ n) : ℚ) / 10 ^ n

/-- Model of Python `s.strip().split()`: split on whitespace runs,
dropping empty tokens. -/
def pySplitWS (s : String) : List String :=
  (s.trim.split fun c => c.isWhitespace).filter (fun t => t ≠ "")

/-- RA conversion used by `parse_coordinates`:
`(ra_h + ra_m/60 + ra_s/3600) * 15`. -/
def raDegOf (h m s : ℚ) : ℚ := (h + m / 60 + s / 3600) * 15

/-- Dec conversion used by `parse_coordinates`:
`dec_sign * (dec_d + dec_m/60 + dec_s/3600)`. -/
def decDegOf (sign d m s : ℚ) : ℚ := sign * (d + m / 60 + s / 3600)

/-- Embedding of `parse_coordinates`.  Failures (fewer than six
whitespace tokens, or a `float(·)` failure on a numeric piece) become
`none`; note the sign of the fourth token is never validated: any first
character other than `+` yields sign `-1`, and the first character is
always dropped before parsing the degrees. -/
def parse_coordinates (coord_str : String) : Option (ℚ × ℚ) :=
  match pySplitWS coord_str with
  | p0 :: p1 :: p2 :: p3 :: p4 :: p5 :: _ =>
      match pyFloat? p0, pyFloat? p1, pyFloat? p2,
            pyFloat? (p3.drop 1), pyFloat? p4, pyFloat? p5 with
      | some ra_h, some ra_m, some ra_s, some dec_d, some dec_m, some dec_s =>
          let dec_sign : ℚ := if p3.front = '+' then 1 else -1
          some (raDegOf ra_h ra_m ra_s, decDegOf dec_sign dec_d dec_m dec_s)
      | _, _, _, _, _, _ => none
  | _ => none

/-- An RGB colour triple. -/
structure RGB where
  r : ℚ
  g : ℚ
  b : ℚ
deriving DecidableEq, Repr

/-- The B−V colour index computed at the top of `get_star_color`:
defined only when both magnitude strings are present, non-sentinel and
parse as numbers. -/
def computeBV (b_mag v_mag : String) : Option ℚ :=
  if b_mag ≠ "~" && v_mag ≠ "~" && b_mag ≠ "" && v_mag ≠ "" then
    match pyFloat? b_mag, pyFloat? v_mag with
    | some b, some v => some (b - v)
    | _, _ => none
  else none

/-- `b_v is not None and b_v < t`. -/
def bvLt (o : Option ℚ) (t : ℚ) : Bool :=
  match o with
  | some x => x < t
  | none => false

/-- `b_v is not None and b_v > t`. -/
def bvGt (o : Option ℚ) (t : ℚ) : Bool :=
  match o with
  | some x => t < x
  | none => false

/-- The final B−V fine-tuning table of `get_star_color` (the ascending
threshold chain at the end of the function). -/
def bvOverride (x : ℚ) : RGB :=
  if x < -0.3 then ⟨0.6, 0.7, 1⟩
  else if x < -0.1 then ⟨0.8, 0.8, 1⟩
  else if x < 0.2 then ⟨0.9, 0.9, 1⟩
  else if x < 0.5 then ⟨1, 0.95, 0.9⟩
  else if x < 0.8 then ⟨1, 0.9, 0.7⟩
  else if x < 1.2 then ⟨1, 0.8, 0.5⟩
  else if x < 1.6 then ⟨1, 0.7, 0.4⟩
  else ⟨1, 0.6, 0.3⟩

/-- Embedding of `get_star_color`: spectral-class base colour followed by
the unconditional B−V fine-tuning step. -/
def get_star_color (spectral_type b_mag v_mag : String) : RGB :=
  let b_v := computeBV b_mag v_mag
  let color : RGB := ⟨1, 0.95, 0.9⟩
  let color :=
    if spectral_type ≠ "" then
      let spec_type := spectral_type.toUpper
      if spec_type.startsWith "O" || spec_type.startsWith "B" then
        if bvLt b_v (-0.2) then ⟨0.7, 0.8, 1⟩
        else if bvLt b_v 0 then ⟨0.8, 0.8, 1⟩
        else ⟨0.9, 0.9, 1⟩
      else if spec_type.startsWith "A" then ⟨1, 0.95, 0.9⟩
      else if spec_type.startsWith "F" then ⟨1, 0.9, 0.7⟩
      else if spec_type.startsWith "G" then ⟨1, 0.8, 0.5⟩
      else if spec_type.startsWith "K" then ⟨1, 0.7, 0.4⟩
      else if spec_type.startsWith "M" then
        if bvGt b_v 1.5 then ⟨1, 0.5, 0.2⟩ else ⟨1, 0.6, 0.3⟩
      else if hasSub spec_type "WR" || hasSub spec_type "WC" || hasSub spec_type "WN" then
        ⟨0.7, 0.8, 1⟩
      else color
    else color
  match b_v with
  | some x => bvOverride x
  | none => color

/-- The output star record (`{"i": …, "n": …, "ra_deg": …, "dec_deg": …,
"N": …, "K": …}` in the source). -/
structure StarRecord where
  i : ℤ
  n : String
  ra_deg : ℚ
  dec_deg : ℚ
  N : ℚ
  K : RGB
deriving DecidableEq, Repr

/-- Outcome of processing one data line: a record, a silent skip
(`continue` outside any `except`), or a skip logged by the `except`
handler. -/
inductive LineResult where
  | record (r : StarRecord)
  | silent
  | logged
deriving DecidableEq, Repr

/-- Name normalisation for the output record:
`identifier.replace('*', '').replace('HD', 'HD ').strip()`. -/
def normName (identifier : String) : String :=
  (((identifier.replace "*" "").replace "HD" "HD ")).trim

/-- Embedding of the body of the per-line loop of `parse_stars_file`
from the `line.split('|')` on: field extraction, the V-magnitude
sentinel check, coordinate conversion, the faintness and hemisphere
cutoffs, colour classification and record construction.  Failures of
`parse_coordinates`, `float(mag_v)` or `int(star_id)` are the paths the
source logs; the guard skips are silent. -/
def processPartsR (parts : List String) : LineResult :=
  if parts.length < 8 then .silent
  else
    let star_id := (parts.getD 0 "").trim
    let identifier := (parts.getD 1 "").trim
    let star_type := (parts.getD 2 "").trim
    let coordinates := (parts.getD 3 "").trim
    let mag_u := (parts.getD 4 "").trim
    let mag_b := (parts.getD 5 "").trim
    let mag_v := (parts.getD 6 "").trim
    let mag_r := (parts.getD 7 "").trim
    let mag_i := if parts.length > 8 then (parts.getD 8 "").trim else "~"
    let spectral_type := if parts.length > 9 then (parts.getD 9 "").trim else ""
    if mag_v = "~" || mag_v = "" then .silent
    else
      match parse_coordinates coordinates with
      | none => .logged
      | some (ra_deg, dec_deg) =>
          match pyFloat? mag_v with
          | none => .logged
          | some v_magnitude =>
              if v_magnitude > 6.5 then .silent
              else if dec_deg < -10 then .silent
              else
                match pyInt? star_id with
                | none => .logged
                | some idn =>
                    .record
                      { i := idn
                        n := normName identifier
                        ra_deg := pyRound ra_deg 6
                        dec_deg := pyRound dec_deg 6
                        N := pyRound v_magnitude 2
                        K := get_star_color spectral_type mag_b mag_v }

/-- The header / empty-line skip at the top of the loop. -/
def isHeaderLine (l : String) : Bool :=
  l = "" || l.startsWith "C.D.S." || l.startsWith "Vmag" ||
    l.startsWith "Number" || l.startsWith "#" || l.startsWith "----"

/-- Embedding of one iteration of the loop of `parse_stars_file` on a raw
input line. -/
def processLine (line : String) : LineResult :=
  let l := line.trim
  if isHeaderLine l then .silent
  else if !l.front.isDigit then .silent
  else processPartsR (l.splitOn "|")

/-- Embedding of `parse_stars_file` over an in-memory list of lines (the
file read itself is outside the core). -/
def parse_stars_file (lines : List String) : List StarRecord :=
  lines.filterMap fun l =>
    match processLine l with
    | .record r => some r
    | _ => none

/-- The diagnostic excerpts printed by the `except` handler: the first 50
characters of each (stripped) line whose processing raised. -/
def parse_stars_log (lines : List String) : List String :=
  lines.filterMap fun l =>
    match processLine l with
    | .logged => some (l.trim.take 50)
    | _ => none

/-- The sort in `main`: `stars.sort(key=lambda x: x['N'])`, a stable
ascending sort on the magnitude field. -/
def sortedStars (lines : List String) : List StarRecord :=
  (parse_stars_file lines).mergeSort fun a b => decide (a.N ≤ b.N)

instance exceptDecEq {ε α : Type} [DecidableEq ε] [DecidableEq α] :
    DecidableEq (Except ε α)
  | .error a, .error b =>
      if h : a = b then .isTrue (by rw [h]) else .isFalse (by simp [h])
  | .error _, .ok _ => .isFalse (by simp)
  | .ok _, .error _ => .isFalse (by simp)
  | .ok a, .ok b =>
      if h : a = b then .isTrue (by rw [h]) else .isFalse (by simp [h])

/-- The aggregate structure `main` serialises. -/
structure CatalogOutput where
  description : String
  total_stars : ℕ
  magnitude_min : ℚ
  magnitude_max : ℚ
  stars : List StarRecord
deriving DecidableEq, Repr

/-- Embedding of the output-building part of `main`.  On an empty record
list Python's `min()` raises `ValueError`; that crash is the `error`
branch. -/
def mainOutput (lines : List String) : Except String CatalogOutput :=
  match sortedStars lines with
  | [] => Except.error "min() arg is an empty sequence"
  | s0 :: rest =>
      Except.ok
        { description := "Star catalog parsed from SIMBAD data"
          total_stars := (s0 :: rest).length
          magnitude_min := rest.foldl (fun a r => min a r.N) s0.N
          magnitude_max := rest.foldl (fun a r => max a r.N) s0.N
          stars := s0 :: rest }

/-! ### Helper lemmas -/

/-- When the B−V index is defined, `get_star_color` returns the value of
the final fine-tuning table, whatever the spectral type. -/
theorem getStarColor_eq_bvOverride (s b_mag v_mag : String) (x : ℚ)
    (h : computeBV b_mag v_mag = some x) :
    get_star_color s b_mag v_mag = bvOverride x := by
  simp only [get_star_color, h]

/-- Round-half-to-even never rounds above an integer upper bound. -/
theorem rndNE_le_of_le {x : ℚ} {m : ℤ} (h : x ≤ (m : ℚ)) : rndNE x ≤ m := by
  have hf : ⌊x⌋ ≤ m := by
    have h1 := Int.floor_le_floor h
    simpa using h1
  have hfl : (⌊x⌋ : ℚ) ≤ x := Int.floor_le x
  unfold rndNE
  split_ifs with h1 h2 h3
  · exact hf
  · have hx : (⌊x⌋ : ℚ) < x := by
      have := not_lt.mp h1
      linarith
    have hlt : (⌊x⌋ : ℚ) < (m : ℚ) := lt_of_lt_of_le hx h
    have : ⌊x⌋ < m := by exact_mod_cast hlt
    omega
  · exact hf
  · have hx : (⌊x⌋ : ℚ) < x := by
      have := not_lt.mp h1
      linarith
    have hlt : (⌊x⌋ : ℚ) < (m : ℚ) := lt_of_lt_of_le hx h
    have : ⌊x⌋ < m := by exact_mod_cast hlt
    omega

/-- Round-half-to-even never rounds below an integer lower bound. -/
theorem le_rndNE_of_le {m : ℤ} {x : ℚ} (h : (m : ℚ) ≤ x) : m ≤ rndNE x := by
  have hf : m ≤ ⌊x⌋ := Int.le_floor.mpr h
  unfold rndNE
  split_ifs <;> omega

/-- Evaluation rule for `rndNE` when the fractional part is below 1/2. -/
theorem rndNE_eq_of_lt_half {q : ℚ} {z : ℤ} (h1 : (z : ℚ) ≤ q) (h2 : q < z + 1 / 2) :
    rndNE q = z := by
  have hf : ⌊q⌋ = z := by
    rw [Int.floor_eq_iff]
    refine ⟨h1, ?_⟩
    linarith
  unfold rndNE
  rw [hf, if_pos]
  linarith

/-- Evaluation rule for `rndNE` when the fractional part is above 1/2. -/
theorem rndNE_eq_of_gt_half {q : ℚ} {z : ℤ} (h1 : (z : ℚ) - 1 / 2 < q) (h2 : q < z) :
    rndNE q = z := by
  have hf : ⌊q⌋ = z - 1 := by
    rw [Int.floor_eq_iff]
    push_cast
    constructor <;> linarith
  unfold rndNE
  rw [hf, if_neg, if_pos]
  · omega
  · push_cast
    linarith
  · push_cast
    linarith

/-- Evaluation rule for `pyRound` (round-down case). -/
theorem pyRound_eq_of_lt_half {q : ℚ} {n : ℕ} {z : ℤ}
    (h1 : (z : ℚ) ≤ q * 10 ^ n) (h2 : q * 10 ^ n < z + 1 / 2) :
    pyRound q n = z / 10 ^ n := by
  unfold pyRound
  rw [rndNE_eq_of_lt_half h1 h2]

/-- Evaluation rule for `pyRound` (round-up case). -/
theorem pyRound_eq_of_gt_half {q : ℚ} {n : ℕ} {z : ℤ}
    (h1 : (z : ℚ) - 1 / 2 < q * 10 ^ n) (h2 : q * 10 ^ n < z) :
    pyRound q n = z / 10 ^ n := by
  unfold pyRound
  rw [rndNE_eq_of_gt_half h1 h2]

/-- Rounding a magnitude that passed the faintness cutoff stays within it. -/
theorem pyRound_le_cutoff {v : ℚ} (h : v ≤ 6.5) : pyRound v 2 ≤ 6.5 := by
  have h1 : v * 10 ^ 2 ≤ ((650 : ℤ) : ℚ) := by push_cast; norm_num; linarith
  have h2 : (rndNE (v * 10 ^ 2) : ℚ) ≤ (650 : ℚ) := by
    exact_mod_cast rndNE_le_of_le h1
  unfold pyRound
  norm_num at h2 ⊢
  linarith

/-- Rounding a declination that passed the hemisphere cutoff stays above it. -/
theorem neg_ten_le_pyRound {d : ℚ} (h : -10 ≤ d) : -10 ≤ pyRound d 6 := by
  have h1 : ((-10000000 : ℤ) : ℚ) ≤ d * 10 ^ 6 := by push_cast; linarith
  have h2 : ((-10000000 : ℚ)) ≤ (rndNE (d * 10 ^ 6) : ℚ) := by
    exact_mod_cast le_rndNE_of_le h1
  unfold pyRound
  norm_num at h2 ⊢
  linarith

/-! ### Claim C1 -/

/-- C1: B−V override law.  For any two spectral-type strings and any pair
of magnitude strings that are non-empty, not the sentinel `~`, and both
parse as numbers, `get_star_color` returns the same RGB triple for both
spectral types: the colour is determined solely by the B−V band of the
final threshold table. -/
theorem C1_bv_override_law (s1 s2 b_mag v_mag : String)
    (hb1 : b_mag ≠ "~") (hv1 : v_mag ≠ "~") (hb2 : b_mag ≠ "") (hv2 : v_mag ≠ "")
    (x y : ℚ) (hbp : pyFloat? b_mag = some x) (hvp : pyFloat? v_mag = some y) :
    get_star_color s1 b_mag v_mag = get_star_color s2 b_mag v_mag := by
  have hbv : computeBV b_mag v_mag = some (x - y) := by
    simp [computeBV, hb1, hv1, hb2, hv2, hbp, hvp]
  rw [getStarColor_eq_bvOverride s1 b_mag v_mag (x - y) hbv,
    getStarColor_eq_bvOverride s2 b_mag v_mag (x - y) hbv]

/-- Witness for C1 at concrete inputs: a G-type and an M-type string with
the same parseable magnitudes get the same colour. -/
theorem C1_bv_override_law_witness :
    get_star_color "G2V" "1.0" "0.5" = get_star_color "M3" "1.0" "0.5" :=
  C1_bv_override_law "G2V" "M3" "1.0" "0.5" (by decide) (by decide) (by decide)
    (by decide) 1 (1 / 2) (by with_unfolding_all decide) (by with_unfolding_all decide)

/-! ### Claim C4 -/

/-- C4 (code bug): on an input with zero valid data lines the
magnitude-range computation of `main` is not guarded: Python's `min()`
raises `ValueError` on the empty record sequence, so no `CatalogOutput`
with `total_stars = 0` is produced.  The embedding evaluates the code at
such an input. -/
theorem C4_empty_input_crash :
    mainOutput ["# comment line", "---- ruler ----", ""] =
      Except.error "min() arg is an empty sequence" := by
  with_unfolding_all decide

/-! ### Claim C6 -/

/-- C6 counterexample: on the sample line the B-magnitude field is
`"2.22"`, not the sentinel, so the B−V index is defined (`0.16`),
contradicting the claim that the B−V index is undefined for this line. -/
theorem C6_counterexample : computeBV "2.22" "2.06" = some (4 / 25) := by
  with_unfolding_all decide

set_option maxRecDepth 2000 in
/-- C6 amended: the sample line yields exactly one record with id 1, name
"alf And", magnitude 2.06, ra_deg = 2.096875 (≈2.0969), dec_deg =
29.090417 (≈29.0904) and the blue-white triple (0.9, 0.9, 1) — but the
colour arises from the B−V override band [−0.1, 0.2) for B−V = 0.16,
which coincides with the B8 spectral-class colour, rather than from the
spectral class with no override. -/
theorem C6_amended_sample :
    parse_stars_file ["1|* alf And|**|00 08 23.25 +29 05 25.5|~|2.22|2.06|~|~|B8IVmnp|~"] =
      [{ i := 1, n := "alf And", ra_deg := 671 / 320, dec_deg := 29090417 / 1000000,
         N := 103 / 50, K := ⟨9 / 10, 9 / 10, 1⟩ }] := by
  have hsp : pySplitWS "00 08 23.25 +29 05 25.5" = ["00", "08", "23.25", "+29", "05", "25.5"] := by
    with_unfolding_all decide
  have hf0 : pyFloat? "00" = some 0 := by with_unfolding_all decide
  have hf1 : pyFloat? "08" = some 8 := by with_unfolding_all decide
  have hf2 : pyFloat? "23.25" = some (93 / 4) := by with_unfolding_all decide
  have hf3 : pyFloat? ("+29".drop 1) = some 29 := by with_unfolding_all decide
  have hf4 : pyFloat? "05" = some 5 := by with_unfolding_all decide
  have hf5 : pyFloat? "25.5" = some (51 / 2) := by with_unfolding_all decide
  have hfr : "+29".front = '+' := by with_unfolding_all decide
  have hpc : parse_coordinates "00 08 23.25 +29 05 25.5" = some (671 / 320, 69817 / 2400) := by
    simp only [parse_coordinates, hsp, hf0, hf1, hf2, hf3, hf4, hf5, hfr, if_pos]
    norm_num [raDegOf, decDegOf]
  have hrd1 : pyRound (671 / 320) 6 = ((2096875 : ℤ) : ℚ) / 10 ^ 6 :=
    pyRound_eq_of_lt_half (by norm_num) (by norm_num)
  have hrd2 : pyRound (69817 / 2400) 6 = ((29090417 : ℤ) : ℚ) / 10 ^ 6 :=
    pyRound_eq_of_gt_half (by norm_num) (by norm_num)
  have hrd3 : pyRound (103 / 50) 2 = ((206 : ℤ) : ℚ) / 10 ^ 2 :=
    pyRound_eq_of_lt_half (by norm_num) (by norm_num)
  have hfv : pyFloat? "2.06" = some (103 / 50) := by with_unfolding_all decide
  have hid : pyInt? "1" = some 1 := by with_unfolding_all decide
  have hcol : get_star_color "B8IVmnp" "2.22" "2.06" = RGB.mk (9 / 10) (9 / 10) 1 := by
    with_unfolding_all decide
  have hname : normName "* alf And" = "alf And" := by with_unfolding_all decide
  have htrim :
      ("1|* alf And|**|00 08 23.25 +29 05 25.5|~|2.22|2.06|~|~|B8IVmnp|~").trim =
        "1|* alf And|**|00 08 23.25 +29 05 25.5|~|2.22|2.06|~|~|B8IVmnp|~" := by
    with_unfolding_all decide
  have hsplit :
      ("1|* alf And|**|00 08 23.25 +29 05 25.5|~|2.22|2.06|~|~|B8IVmnp|~").splitOn "|" =
        ["1", "* alf And", "**", "00 08 23.25 +29 05 25.5", "~", "2.22", "2.06", "~", "~",
          "B8IVmnp", "~"] := by
    with_unfolding_all decide
  have ht1 : ("1" : String).trim = "1" := by with_unfolding_all decide
  have ht2 : ("* alf And" : String).trim = "* alf And" := by with_unfolding_all decide
  have ht3 : ("**" : String).trim = "**" := by with_unfolding_all decide
  have ht4 : ("00 08 23.25 +29 05 25.5" : String).trim = "00 08 23.25 +29 05 25.5" := by
    with_unfolding_all decide
  have ht5 : ("~" : String).trim = "~" := by with_unfolding_all decide
  have ht6 : ("2.22" : String).trim = "2.22" := by with_unfolding_all decide
  have ht7 : ("2.06" : String).trim = "2.06" := by with_unfolding_all decide
  have ht8 : ("B8IVmnp" : String).trim = "B8IVmnp" := by with_unfolding_all decide
  have hparts :
      processPartsR ["1", "* alf And", "**", "00 08 23.25 +29 05 25.5", "~", "2.22", "2.06",
          "~", "~", "B8IVmnp", "~"] =
        LineResult.record
          { i := 1, n := "alf And", ra_deg := 671 / 320, dec_deg := 29090417 / 1000000,
            N := 103 / 50, K := ⟨9 / 10, 9 / 10, 1⟩ } := by
    norm_num [processPartsR, List.getD_cons_zero, List.getD_cons_succ, ht1, ht2, ht3, ht4,
      ht5, ht6, ht7, ht8, hpc, hfv, hid, hcol, hname, hrd1, hrd2, hrd3]
    rintro (h | h) <;> exact absurd h (by decide)
  have hhead :
      isHeaderLine "1|* alf And|**|00 08 23.25 +29 05 25.5|~|2.22|2.06|~|~|B8IVmnp|~" =
        false := by
    with_unfolding_all decide
  have hdig :
      ("1|* alf And|**|00 08 23.25 +29 05 25.5|~|2.22|2.06|~|~|B8IVmnp|~").front.isDigit =
        true := by
    with_unfolding_all decide
  have hline :
      processLine "1|* alf And|**|00 08 23.25 +29 05 25.5|~|2.22|2.06|~|~|B8IVmnp|~" =
        LineResult.record
          { i := 1, n := "alf And", ra_deg := 671 / 320, dec_deg := 29090417 / 1000000,
            N := 103 / 50, K := ⟨9 / 10, 9 / 10, 1⟩ } := by
    simp [processLine, htrim, hhead, hdig, hsplit, hparts]
  simp [parse_stars_file, hline]

/-! ### Claim C3 -/

/-- C3 counterexample: the claim says `parse_coordinates` fails whenever
the first character of the fourth token is neither `+` nor `-`.  But on
`"0 0 0 61 0 0"` — fourth token `"61"`, first character `'6'` — the
function succeeds, returning declination `-1` (sign taken negative,
first character dropped). -/
theorem C3_counterexample : parse_coordinates "0 0 0 61 0 0" = some (0, -1) := by
  with_unfolding_all decide

/-- C3 amended: `parse_coordinates` fails exactly when there are fewer
than six whitespace tokens, or one of the five numeric tokens fails to
parse, or the fourth token with its first character removed fails to
parse; a malformed sign is never itself rejected.  The model is pure, so
there are no side effects. -/
theorem C3_amended_failure_condition (s : String) :
    ((pySplitWS s).length < 6 → parse_coordinates s = none) ∧
    (∀ p0 p1 p2 p3 p4 p5 : String, ∀ rest : List String,
      pySplitWS s = p0 :: p1 :: p2 :: p3 :: p4 :: p5 :: rest →
      (parse_coordinates s = none ↔
        pyFloat? p0 = none ∨ pyFloat? p1 = none ∨ pyFloat? p2 = none ∨
        pyFloat? (p3.drop 1) = none ∨ pyFloat? p4 = none ∨ pyFloat? p5 = none)) := by
  constructor
  · intro hlen
    rcases h : pySplitWS s with _ | ⟨a, _ | ⟨b, _ | ⟨c, _ | ⟨d, _ | ⟨e, _ | ⟨f, t⟩⟩⟩⟩⟩⟩
    · unfold parse_coordinates; rw [h]
    · unfold parse_coordinates; rw [h]
    · unfold parse_coordinates; rw [h]
    · unfold parse_coordinates; rw [h]
    · unfold parse_coordinates; rw [h]
    · unfold parse_coordinates; rw [h]
    · rw [h] at hlen
      simp at hlen
      omega
  · intro p0 p1 p2 p3 p4 p5 rest hsp
    simp only [parse_coordinates, hsp]
    constructor
    · intro hnone
      by_contra hcon
      push_neg at hcon
      obtain ⟨hn0, hn1, hn2, hn3, hn4, hn5⟩ := hcon
      obtain ⟨x0, e0⟩ := Option.ne_none_iff_exists'.mp hn0
      obtain ⟨x1, e1⟩ := Option.ne_none_iff_exists'.mp hn1
      obtain ⟨x2, e2⟩ := Option.ne_none_iff_exists'.mp hn2
      obtain ⟨x3, e3⟩ := Option.ne_none_iff_exists'.mp hn3
      obtain ⟨x4, e4⟩ := Option.ne_none_iff_exists'.mp hn4
      obtain ⟨x5, e5⟩ := Option.ne_none_iff_exists'.mp hn5
      rw [e0, e1, e2, e3, e4, e5] at hnone
      simp at hnone
    · intro hdisj
      rcases e0 : pyFloat? p0 with _ | x0
      · simp
      rcases e1 : pyFloat? p1 with _ | x1
      · simp
      rcases e2 : pyFloat? p2 with _ | x2
      · simp
      rcases e3 : pyFloat? (p3.drop 1) with _ | x3
      · simp
      rcases e4 : pyFloat? p4 with _ | x4
      · simp
      rcases e5 : pyFloat? p5 with _ | x5
      · simp
      exfalso
      rcases hdisj with h | h | h | h | h | h <;> simp_all

/-- Witness for the amended C3: a six-token string with a non-numeric
first token makes `parse_coordinates` fail. -/
theorem C3_amended_failure_witness : parse_coordinates "a b c d e f" = none := by
  have h := (C3_amended_failure_condition "a b c d e f").2 "a" "b" "c" "d" "e" "f" []
    (by with_unfolding_all decide)
  exact h.mpr (Or.inl (by with_unfolding_all decide))

/-! ### Claim C9 -/

/-- C9: when the fourth whitespace token of the coordinate string does
not begin with `'+'`, `parse_coordinates` does not reject the sign: the
declination sign is taken to be `-1` and the fourth token with its first
character removed is parsed as the degrees magnitude. -/
theorem C9_unsigned_token_negative (s : String) (p0 p1 p2 p3 p4 p5 : String)
    (rest : List String)
    (hsp : pySplitWS s = p0 :: p1 :: p2 :: p3 :: p4 :: p5 :: rest)
    (hplus : p3.front ≠ '+')
    (h m sec d dm ds : ℚ)
    (h0 : pyFloat? p0 = some h) (h1 : pyFloat? p1 = some m) (h2 : pyFloat? p2 = some sec)
    (h3 : pyFloat? (p3.drop 1) = some d) (h4 : pyFloat? p4 = some dm)
    (h5 : pyFloat? p5 = some ds) :
    parse_coordinates s = some (raDegOf h m sec, decDegOf (-1) d dm ds) := by
  simp only [parse_coordinates, hsp, h0, h1, h2, h3, h4, h5]
  simp [hplus]

/-- Witness for C9: the unsigned fourth token `"61"` yields a declination
built from degrees value 1 with negative sign. -/
theorem C9_unsigned_token_negative_witness :
    parse_coordinates "0 0 0 61 7 30" = some (raDegOf 0 0 0, decDegOf (-1) 1 7 30) :=
  C9_unsigned_token_negative "0 0 0 61 7 30" "0" "0" "0" "61" "7" "30" []
    (by with_unfolding_all decide) (by with_unfolding_all decide) 0 0 0 1 7 30
    (by with_unfolding_all decide) (by with_unfolding_all decide)
    (by with_unfolding_all decide) (by with_unfolding_all decide)
    (by with_unfolding_all decide) (by with_unfolding_all decide)

/-! ### Claim C8 -/

set_option maxRecDepth 2000 in
/-- C8 counterexample: the string `"23 59.9 59.9 +0 0 0"` has six tokens,
hour token 23 ∈ [0, 24), minute and second tokens 59.9 ∈ [0, 60) and a
well-formed signed declination, yet the returned `ra_deg` is
864539/2400 ≈ 360.22, outside [0, 360). -/
theorem C8_counterexample :
    parse_coordinates "23 59.9 59.9 +0 0 0" = some (864539 / 2400, 0) ∧
    pyFloat? "23" = some 23 ∧ ((0 : ℚ) ≤ 23 ∧ (23 : ℚ) < 24) ∧
    pyFloat? "59.9" = some (599 / 10) ∧ ((0 : ℚ) ≤ 599 / 10 ∧ (599 / 10 : ℚ) < 60) ∧
    ¬((864539 / 2400 : ℚ) < 360) := by
  have hsp : pySplitWS "23 59.9 59.9 +0 0 0" = ["23", "59.9", "59.9", "+0", "0", "0"] := by
    with_unfolding_all decide
  have hf0 : pyFloat? "23" = some 23 := by with_unfolding_all decide
  have hf1 : pyFloat? "59.9" = some (599 / 10) := by with_unfolding_all decide
  have hf3 : pyFloat? ("+0".drop 1) = some 0 := by with_unfolding_all decide
  have hf4 : pyFloat? "0" = some 0 := by with_unfolding_all decide
  have hfr : "+0".front = '+' := by with_unfolding_all decide
  have hpc : parse_coordinates "23 59.9 59.9 +0 0 0" = some (864539 / 2400, 0) := by
    simp only [parse_coordinates, hsp, hf0, hf1, hf3, hf4, hfr, if_pos]
    norm_num [raDegOf, decDegOf]
  exact ⟨hpc, hf0, by norm_num, hf1, by norm_num, by norm_num⟩

/-- C8 amended: if additionally the parsed hour, minute and second values
are non-negative and total less than 24 hours (`h + m/60 + s/3600 < 24`,
which holds in particular for integral hour/minute tokens with h ≤ 23,
m ≤ 59, s < 60), then `ra_deg ∈ [0, 360)`; and the RA conversion is
strictly increasing in the seconds value unconditionally. -/
theorem C8_amended_ra_range (s : String) (p0 p1 p2 p3 p4 p5 : String) (rest : List String)
    (hsp : pySplitWS s = p0 :: p1 :: p2 :: p3 :: p4 :: p5 :: rest)
    (h m sec : ℚ)
    (h0 : pyFloat? p0 = some h) (h1 : pyFloat? p1 = some m) (h2 : pyFloat? p2 = some sec)
    (hh : 0 ≤ h) (hm : 0 ≤ m) (hs : 0 ≤ sec) (htot : h + m / 60 + sec / 3600 < 24)
    (ra dec : ℚ) (hp : parse_coordinates s = some (ra, dec)) :
    (0 ≤ ra ∧ ra < 360) ∧ ∀ sec2 : ℚ, sec < sec2 → raDegOf h m sec < raDegOf h m sec2 := by
  have hra : ra = raDegOf h m sec := by
    simp only [parse_coordinates, hsp, h0, h1, h2] at hp
    rcases e3 : pyFloat? (p3.drop 1) with _ | d3
    · rw [e3] at hp; simp at hp
    rcases e4 : pyFloat? p4 with _ | d4
    · rw [e4] at hp; simp at hp
    rcases e5 : pyFloat? p5 with _ | d5
    · rw [e5] at hp; simp at hp
    rw [e3, e4, e5] at hp
    simp only [Option.some.injEq, Prod.mk.injEq] at hp
    exact hp.1.symm
  subst hra
  refine ⟨⟨?_, ?_⟩, ?_⟩
  · unfold raDegOf
    have hm60 : 0 ≤ m / 60 := by positivity
    have hs36 : 0 ≤ sec / 3600 := by positivity
    linarith
  · unfold raDegOf
    linarith
  · intro sec2 hlt
    unfold raDegOf
    have : sec / 3600 < sec2 / 3600 := by linarith
    linarith

set_option maxRecDepth 2000 in
/-- Witness for the amended C8 at `"1 2 3 +4 5 6"`: the RA is in range
and increasing the seconds token value from 3 to 4 increases it. -/
theorem C8_amended_ra_range_witness :
    ((0 : ℚ) ≤ 1241 / 80 ∧ (1241 / 80 : ℚ) < 360) ∧ raDegOf 1 2 3 < raDegOf 1 2 4 := by
  have hmain := C8_amended_ra_range "1 2 3 +4 5 6" "1" "2" "3" "+4" "5" "6" []
    (by with_unfolding_all decide) 1 2 3
    (by with_unfolding_all decide) (by with_unfolding_all decide)
    (by with_unfolding_all decide)
    (by norm_num) (by norm_num) (by norm_num) (by norm_num)
    (1241 / 80) (817 / 200) (by with_unfolding_all decide)
  exact ⟨hmain.1, hmain.2 4 (by norm_num)⟩

/-! ### Claim C7 -/

set_option maxRecDepth 2000 in
/-- C7 counterexample: the 7-field line `"2|bad|**|garbage coords|1|2|3"`
is skipped (contributes no record), but its skip is *silent*: the
`len(parts) < 8` check sits before the `try` block, so no truncated
excerpt is logged for it, contradicting the claim that this failure kind
is "skipped with a logged truncated excerpt". -/
theorem C7_counterexample :
    processLine "2|bad|**|garbage coords|1|2|3" = LineResult.silent ∧
    parse_stars_file ["2|bad|**|garbage coords|1|2|3"] = [] ∧
    parse_stars_log ["2|bad|**|garbage coords|1|2|3"] = [] := by
  refine ⟨by with_unfolding_all decide, by with_unfolding_all decide,
    by with_unfolding_all decide⟩

/-- C7 amended: any line that produces no record affects neither the
records of the other lines nor their order — the pipeline never aborts;
failures raised inside the `try` block (`logged` skips) additionally
emit a truncated 50-character excerpt of the line, while lines with
fewer than 8 fields — such as `"2|bad|**|garbage coords|1|2|3"` — are
skipped silently. -/
theorem C7_amended_line_isolation (pre post : List String) (line : String)
    (hskip : processLine line = LineResult.silent ∨ processLine line = LineResult.logged) :
    parse_stars_file (pre ++ line :: post) = parse_stars_file (pre ++ post) ∧
    (processLine line = LineResult.logged →
      parse_stars_log (pre ++ line :: post) =
        parse_stars_log pre ++ line.trim.take 50 :: parse_stars_log post) ∧
    processLine "2|bad|**|garbage coords|1|2|3" = LineResult.silent := by
  refine ⟨?_, ?_, by with_unfolding_all decide⟩
  · unfold parse_stars_file
    rcases hskip with h | h <;>
      simp [List.filterMap_append, List.filterMap_cons, h]
  · intro hlog
    unfold parse_stars_log
    simp [List.filterMap_append, List.filterMap_cons, hlog]

set_option maxRecDepth 2000 in
/-- Witness for the amended C7: appending the malformed 7-field line
after a good line leaves the parsed records unchanged. -/
theorem C7_amended_line_isolation_witness :
    parse_stars_file
        (["5|X|**|0 0 0 +0 0 0|~|~|3.0|~|~|A0|~"] ++ "2|bad|**|garbage coords|1|2|3" :: []) =
      parse_stars_file (["5|X|**|0 0 0 +0 0 0|~|~|3.0|~|~|A0|~"] ++ []) ∧
    (processLine "2|bad|**|garbage coords|1|2|3" = LineResult.logged →
      parse_stars_log
          (["5|X|**|0 0 0 +0 0 0|~|~|3.0|~|~|A0|~"] ++ "2|bad|**|garbage coords|1|2|3" :: []) =
        parse_stars_log ["5|X|**|0 0 0 +0 0 0|~|~|3.0|~|~|A0|~"] ++
          ("2|bad|**|garbage coords|1|2|3").trim.take 50 :: parse_stars_log []) ∧
    processLine "2|bad|**|garbage coords|1|2|3" = LineResult.silent :=
  C7_amended_line_isolation ["5|X|**|0 0 0 +0 0 0|~|~|3.0|~|~|A0|~"] []
    "2|bad|**|garbage coords|1|2|3" (Or.inl (by with_unfolding_all decide))

/-! ### Claim C10 -/

/-- C10: noninterference of unused fields.  Two field lists of the same
length that agree everywhere except possibly at indices 2 (object
type), 4 (U magnitude), 7 (R magnitude) and 8 (I magnitude) receive
the same keep/skip/log decision and, when kept, produce identical star
records: the record depends only on the id, identifier, coordinate,
B-magnitude, V-magnitude and spectral-type fields. -/
theorem C10_unused_fields_noninterference (p q : List String)
    (hlen : p.length = q.length)
    (hag : ∀ i : ℕ, i ≠ 2 → i ≠ 4 → i ≠ 7 → i ≠ 8 → p.getD i "" = q.getD i "") :
    processPartsR p = processPartsR q := by
  have e0 := hag 0 (by omega) (by omega) (by omega) (by omega)
  have e1 := hag 1 (by omega) (by omega) (by omega) (by omega)
  have e3 := hag 3 (by omega) (by omega) (by omega) (by omega)
  have e5 := hag 5 (by omega) (by omega) (by omega) (by omega)
  have e6 := hag 6 (by omega) (by omega) (by omega) (by omega)
  have e9 := hag 9 (by omega) (by omega) (by omega) (by omega)
  simp only [processPartsR, hlen, e0, e1, e3, e5, e6, e9]

/-- Witness for C10: two ten-field lists differing exactly in the type,
U, R and I fields produce the same result. -/
theorem C10_unused_fields_noninterference_witness :
    processPartsR ["1", "Aa", "T1", "0 0 0 +0 0 0", "U1", "~", "3.0", "R1", "I1", "A0"] =
      processPartsR ["1", "Aa", "T2", "0 0 0 +0 0 0", "U2", "~", "3.0", "R2", "I2", "A0"] :=
  C10_unused_fields_noninterference _ _ (by decide) (by
    intro i h2 h4 h7 h8
    match i with
    | 0 => rfl
    | 1 => rfl
    | 2 => exact absurd rfl h2
    | 3 => rfl
    | 4 => exact absurd rfl h4
    | 5 => rfl
    | 6 => rfl
    | 7 => exact absurd rfl h7
    | 8 => exact absurd rfl h8
    | 9 => rfl
    | n + 10 => rfl)

/-! ### Claim C2 -/

/-- Any record produced by the per-line body comes from a raw V magnitude
and a raw converted declination that passed the two cutoffs, and its `N`
and `dec_deg` fields are exactly their roundings. -/
theorem processPartsR_record_bounds {parts : List String} {r : StarRecord}
    (h : processPartsR parts = LineResult.record r) :
    ∃ v dec : ℚ, v ≤ 6.5 ∧ -10 ≤ dec ∧ r.N = pyRound v 2 ∧ r.dec_deg = pyRound dec 6 := by
  simp only [processPartsR] at h
  split at h
  · simp at h
  split at h
  · simp at h
  split at h
  · simp at h
  next ra dec heq =>
    split at h
    · simp at h
    next v hv =>
      split at h
      · simp at h
      next hv65 =>
        split at h
        · simp at h
        next hdec =>
          split at h
          · simp at h
          next idn hid =>
            rw [LineResult.record.injEq] at h
            subst h
            exact ⟨v, dec, by linarith [not_lt.mp hv65], by linarith [not_lt.mp hdec],
              rfl, rfl⟩

/-- C2: filtering invariant.  Every record in the output of
`parse_stars_file` has (rounded) magnitude ≤ 6.5 and (rounded)
declination ≥ −10, and arises from raw values that themselves satisfy
the cutoffs — so no line whose parsed V magnitude exceeds 6.5 or whose
converted declination is below −10 contributes a record. -/
theorem C2_filtering_invariant (lines : List String) (r : StarRecord)
    (hr : r ∈ parse_stars_file lines) :
    (r.N ≤ 6.5 ∧ -10 ≤ r.dec_deg) ∧
    ∃ v dec : ℚ, v ≤ 6.5 ∧ -10 ≤ dec ∧ r.N = pyRound v 2 ∧ r.dec_deg = pyRound dec 6 := by
  obtain ⟨l, hl, hf⟩ := List.mem_filterMap.mp hr
  have hrec : processLine l = LineResult.record r := by
    cases hpl : processLine l with
    | record r2 => rw [hpl] at hf; simp at hf; rw [hf]
    | silent => rw [hpl] at hf; simp at hf
    | logged => rw [hpl] at hf; simp at hf
  have hpp : ∃ parts, processPartsR parts = LineResult.record r := by
    simp only [processLine] at hrec
    split at hrec
    · simp at hrec
    split at hrec
    · simp at hrec
    exact ⟨_, hrec⟩
  obtain ⟨parts, hparts⟩ := hpp
  obtain ⟨v, dec, hv, hdec, hN, hD⟩ := processPartsR_record_bounds hparts
  refine ⟨⟨?_, ?_⟩, v, dec, hv, hdec, hN, hD⟩
  · rw [hN]; exact pyRound_le_cutoff hv
  · rw [hD]; exact neg_ten_le_pyRound hdec

set_option maxRecDepth 2000 in
/-- Witness for C2 on a concrete good line: the produced record satisfies
both cutoffs. -/
theorem C2_filtering_invariant_witness :
    ((StarRecord.mk 5 "X" 0 0 3 (RGB.mk 1 (19 / 20) (9 / 10))).N ≤ 6.5 ∧
      -10 ≤ (StarRecord.mk 5 "X" 0 0 3 (RGB.mk 1 (19 / 20) (9 / 10))).dec_deg) ∧
    (∃ v dec : ℚ, v ≤ 6.5 ∧ -10 ≤ dec ∧
      (StarRecord.mk 5 "X" 0 0 3 (RGB.mk 1 (19 / 20) (9 / 10))).N = pyRound v 2 ∧
      (StarRecord.mk 5 "X" 0 0 3 (RGB.mk 1 (19 / 20) (9 / 10))).dec_deg = pyRound dec 6) :=
  C2_filtering_invariant ["5|X|**|0 0 0 +0 0 0|~|~|3.0|~|~|A0|~"]
    (StarRecord.mk 5 "X" 0 0 3 (RGB.mk 1 (19 / 20) (9 / 10)))
    (by with_unfolding_all decide)

/-! ### Claim C5 -/

/-- C5: sort law.  The final stars sequence is non-decreasing in the
magnitude field `N`, and any two records with equal magnitude keep the
relative order they had in `parse_stars_file`'s output, which lists
records in input-line order (the sort is stable with no secondary
key). -/
theorem C5_sort_law (lines : List String) :
    (sortedStars lines).Pairwise (fun a b => a.N ≤ b.N) ∧
    ∀ a b : StarRecord, a.N = b.N → List.Sublist [a, b] (parse_stars_file lines) →
      List.Sublist [a, b] (sortedStars lines) := by
  have htrans : ∀ a b c : StarRecord,
      (fun x y : StarRecord => decide (x.N ≤ y.N)) a b = true →
      (fun x y : StarRecord => decide (x.N ≤ y.N)) b c = true →
      (fun x y : StarRecord => decide (x.N ≤ y.N)) a c = true := by
    intro a b c h1 h2
    simp only [decide_eq_true_eq] at h1 h2 ⊢
    exact le_trans h1 h2
  have htotal : ∀ a b : StarRecord,
      ((fun x y : StarRecord => decide (x.N ≤ y.N)) a b ||
        (fun x y : StarRecord => decide (x.N ≤ y.N)) b a) = true := by
    intro a b
    simp only [Bool.or_eq_true, decide_eq_true_eq]
    exact le_total a.N b.N
  constructor
  · have hs := List.sorted_mergeSort htrans htotal (parse_stars_file lines)
    unfold sortedStars
    exact hs.imp (fun hxy => by simpa using hxy)
  · intro a b hab hsub
    unfold sortedStars
    apply List.sublist_mergeSort htrans htotal ?_ hsub
    constructor
    · intro b2 hb2
      simp only [List.mem_singleton] at hb2
      subst hb2
      simp [hab]
    · exact List.pairwise_singleton _ _

set_option maxRecDepth 2000 in
/-- Witness for C5: two equal-magnitude records keep their input order in
the sorted output. -/
theorem C5_sort_law_witness :
    List.Sublist
      [StarRecord.mk 1 "A" 0 0 3 (RGB.mk 1 (19 / 20) (9 / 10)),
        StarRecord.mk 2 "B" 0 0 3 (RGB.mk 1 (19 / 20) (9 / 10))]
      (sortedStars ["1|A|**|0 0 0 +0 0 0|~|~|3.0|~|~|A0|~",
        "2|B|**|0 0 0 +0 0 0|~|~|3.0|~|~|A0|~"]) := by
  have hpf : parse_stars_file ["1|A|**|0 0 0 +0 0 0|~|~|3.0|~|~|A0|~",
      "2|B|**|0 0 0 +0 0 0|~|~|3.0|~|~|A0|~"] =
      [StarRecord.mk 1 "A" 0 0 3 (RGB.mk 1 (19 / 20) (9 / 10)),
        StarRecord.mk 2 "B" 0 0 3 (RGB.mk 1 (19 / 20) (9 / 10))] := by
    with_unfolding_all decide
  refine (C5_sort_law _).2 _ _ rfl ?_
  rw [hpf]

end Phantastro
